import Mathlib

/-!
Verification development for the `observatory` reactive-graph core
(`src/observatory/src/{observer.rs, observable.rs, static_state.rs}`).

The embedding is a deterministic interpreter over an explicit graph state:
nodes are stored in a list indexed by a numeric id, which plays the role of
the heap address used by the source for identity comparisons
(`get_unique_data_address`, `Weak::ptr_eq`).  Rust panics are modelled as
`Except.error` with a `Panic` tag naming the panic site.  The mutually
recursive stale/ready protocol is given explicit fuel; running out of fuel
is its own error, so `Except.ok` results are genuine terminating runs of
the source algorithm.

Derivation compute closures are embedded as a small expression language
(`CExpr`): integer literals, tracked reads of a node (the source's
`borrow()`, which calls `static_state::note_observed` before returning the
value), addition, and a conditional that treats a non-zero integer as the
Rust boolean `true`.  Every closure appearing in the repository's tests and
in the spec's scenarios is of this shape.  The per-node `computeCount`
field counts invocations of the compute closure, mirroring the external
`Rc<Cell<usize>>` counters used by the source's tests.
-/

/-- Panic sites of the source, used as the error type of the interpreter. -/
inductive Panic where
  /-- `assert_static_state_access`: init() has not been called. -/
  | notInitialized
  /-- `assert_static_state_access`: called from a thread other than the
  one that called init(). -/
  | wrongThread
  /-- `note_observed` with no active capture frame. -/
  | readOutsideDerivation
  /-- `pop_observing_stack` called more times than push. -/
  | stackUnderflow
  /-- `ObserverList::remove`: observer not found (the source's
  "(Internal error) Tried to unsubscribe an observer that was already
  unsubscribed."). -/
  | observerNotFound
  /-- `ObserverList::add`: observer already present. -/
  | duplicateObserver
  /-- `Weak::upgrade().unwrap()` on a dead observer during broadcast. -/
  | deadObserver
  /-- Dangling node id (cannot arise in runs built by the constructors). -/
  | badNode
  /-- The `assert!(self.should_update.get())` at the top of
  `DerivationData::update`. -/
  | assertFailed
  /-- `num_stale_notifications.get() - 1` underflow in `send_ready`. -/
  | staleUnderflow
  /-- Interpreter fuel exhausted (not a source behaviour). -/
  | outOfFuel
deriving DecidableEq

/-- A node is an observable leaf or a derivation. -/
inductive NodeKind where
  | obs
  | deriv
deriving DecidableEq

/-- Embedded compute closures: tracked reads, integer arithmetic, and a
conditional on a boolean encoded as zero / non-zero. -/
inductive CExpr where
  | lit : Int → CExpr
  | read : Nat → CExpr
  | add : CExpr → CExpr → CExpr
  | ite : CExpr → CExpr → CExpr → CExpr
deriving DecidableEq

/-- One graph node, the union of the fields of `ObservableData` and
`DerivationData`.  For observables only `kind`, `value`, `observers` and
`alive` are meaningful; the remaining fields stay at their initial values. -/
structure Node where
  kind : NodeKind
  value : Int
  computeValue : CExpr
  observers : List Nat
  observing : List Nat
  numStaleNotifications : Nat
  shouldUpdate : Bool
  computeCount : Nat
  alive : Bool
deriving DecidableEq

/-- Global state: the node heap, the thread-local observing (capture)
stack with the top frame first, and the `MAIN_THREAD` slot of
`static_state.rs` together with the identity of the current thread. -/
structure St where
  nodes : List Node
  observingStack : List (List Nat)
  mainThread : Option Nat
  curThread : Nat
deriving DecidableEq

def getNode (s : St) (id : Nat) : Option Node :=
  s.nodes.get? id

def setNode (s : St) (id : Nat) (n : Node) : St :=
  { s with nodes := s.nodes.set id n }

/-- `assert_static_state_access`: ok iff the current thread is the one
recorded by `init()`. -/
def assertAccess (s : St) : Except Panic Unit :=
  match s.mainThread with
  | none => Except.error Panic.notInitialized
  | some t =>
      if t == s.curThread then Except.ok () else Except.error Panic.wrongThread

/-- `push_observing_stack`. -/
def pushFrame (s : St) : Except Panic St :=
  match assertAccess s with
  | Except.error e => Except.error e
  | Except.ok _ => Except.ok { s with observingStack := [] :: s.observingStack }

/-- `pop_observing_stack`. -/
def popFrame (s : St) : Except Panic (St × List Nat) :=
  match assertAccess s with
  | Except.error e => Except.error e
  | Except.ok _ =>
      match s.observingStack with
      | [] => Except.error Panic.stackUnderflow
      | top :: rest => Except.ok ({ s with observingStack := rest }, top)

/-- `note_observed`: append the node to the top frame unless an entry with
the same unique data address (here: the same id) is already present;
panic with `readOutsideDerivation` when no frame is active. -/
def noteObserved (s : St) (id : Nat) : Except Panic St :=
  match assertAccess s with
  | Except.error e => Except.error e
  | Except.ok _ =>
      match s.observingStack with
      | [] => Except.error Panic.readOutsideDerivation
      | top :: rest =>
          if top.contains id then Except.ok s
          else Except.ok { s with observingStack := (top ++ [id]) :: rest }

/-- Tracked read (`ObservablePtr::borrow` / `DerivationPtr::borrow`):
`note_observed` first, then the current value. -/
def borrowTracked (s : St) (id : Nat) : Except Panic (St × Int) :=
  match noteObserved s id with
  | Except.error e => Except.error e
  | Except.ok s1 =>
      match getNode s1 id with
      | none => Except.error Panic.badNode
      | some n => Except.ok (s1, n.value)

/-- Untracked read (`borrow_untracked`): the value, with no capture-stack
or thread interaction at all (the source function body only touches the
node's `RefCell`). -/
def borrowUntracked (s : St) (id : Nat) : Option Int :=
  (getNode s id).map (fun n => n.value)

/-- Evaluate a compute closure with dependency tracking; each `read` goes
through `noteObserved` exactly like the source's `borrow()`. -/
def evalExpr (s : St) : CExpr → Except Panic (St × Int)
  | CExpr.lit n => Except.ok (s, n)
  | CExpr.read id =>
      match borrowTracked s id with
      | Except.error e => Except.error e
      | Except.ok r => Except.ok r
  | CExpr.add a b =>
      match evalExpr s a with
      | Except.error e => Except.error e
      | Except.ok (s1, x) =>
          match evalExpr s1 b with
          | Except.error e => Except.error e
          | Except.ok (s2, y) => Except.ok (s2, x + y)
  | CExpr.ite c t e =>
      match evalExpr s c with
      | Except.error er => Except.error er
      | Except.ok (s1, x) =>
          if x == 0 then evalExpr s1 e else evalExpr s1 t

/-- Evaluate a compute closure against the current values only (no
tracking, no state change): the "compute function evaluated against the
current observable values" of the spec's freshness property. -/
def evalUntracked (s : St) : CExpr → Option Int
  | CExpr.lit n => some n
  | CExpr.read id => borrowUntracked s id
  | CExpr.add a b =>
      match evalUntracked s a, evalUntracked s b with
      | some x, some y => some (x + y)
      | _, _ => none
  | CExpr.ite c t e =>
      match evalUntracked s c with
      | some x => if x == 0 then evalUntracked s e else evalUntracked s t
      | none => none

/-- `ObserverList::add` on node `target`: panic on a duplicate, else push
at the end. -/
def addObserverTo (s : St) (target observer : Nat) : Except Panic St :=
  match getNode s target with
  | none => Except.error Panic.badNode
  | some n =>
      if n.observers.contains observer then Except.error Panic.duplicateObserver
      else Except.ok (setNode s target { n with observers := n.observers ++ [observer] })

/-- `ObserverList::remove` on node `target`: remove the first occurrence,
panicking with the source's internal error when absent. -/
def removeObserverFrom (s : St) (target observer : Nat) : Except Panic St :=
  match getNode s target with
  | none => Except.error Panic.badNode
  | some n =>
      if n.observers.contains observer then
        Except.ok (setNode s target { n with observers := n.observers.erase observer })
      else Except.error Panic.observerNotFound

/-- First loop of `DerivationData::update`: unsubscribe from every node of
the old dependency list that is not in the new one (comparison by unique
data address, here the id). -/
def shedObservers (s : St) (was now : List Nat) (id : Nat) : Except Panic St :=
  match was with
  | [] => Except.ok s
  | x :: rest =>
      if now.contains x then shedObservers s rest now id
      else
        match removeObserverFrom s x id with
        | Except.error e => Except.error e
        | Except.ok s1 => shedObservers s1 rest now id

/-- Second loop of `DerivationData::update`: subscribe to every node of the
new dependency list that was not in the old one. -/
def addNewObservers (s : St) (now was : List Nat) (id : Nat) : Except Panic St :=
  match now with
  | [] => Except.ok s
  | y :: rest =>
      if was.contains y then addNewObservers s rest was id
      else
        match addObserverTo s y id with
        | Except.error e => Except.error e
        | Except.ok s1 => addNewObservers s1 rest was id

/-- The mutually recursive protocol functions of `observer.rs`
(`send_stale`, `send_ready`, `update` of `DerivationData`, and
`broadcast_stale` / `broadcast_ready` of `ObserverList` together with their
iteration loops), packaged at one fuel level.  The recursion is tied
explicitly with `Nat.rec` over the fuel (see `ops` below) so that concrete
runs reduce inside the kernel. -/
structure Ops where
  sendStale : St → Nat → Except Panic St
  sendReady : St → Nat → Bool → Except Panic St
  broadcastStale : St → Nat → Except Panic St
  broadcastReady : St → Nat → Bool → Except Panic St
  sendStaleList : St → List Nat → Except Panic St
  sendReadyList : St → List Nat → Bool → Except Panic St
  update : St → Nat → Except Panic St

/-- Fuel exhausted: every protocol entry point fails (not a source
behaviour; `Except.ok` results are genuine terminating runs). -/
def opsFail : Ops where
  sendStale _ _ := Except.error Panic.outOfFuel
  sendReady _ _ _ := Except.error Panic.outOfFuel
  broadcastStale _ _ := Except.error Panic.outOfFuel
  broadcastReady _ _ _ := Except.error Panic.outOfFuel
  sendStaleList _ _ := Except.error Panic.outOfFuel
  sendReadyList _ _ _ := Except.error Panic.outOfFuel
  update _ _ := Except.error Panic.outOfFuel

/-- One fuel level of the protocol; each body is a direct transcription of
the corresponding source function, with recursive calls going through
`prev`. -/
def opsStep (prev : Ops) : Ops where
  /- `DerivationData::send_stale`: increment the stale counter; re-broadcast
  STALE to this derivation's own observers iff the old counter was zero. -/
  sendStale s id :=
    match getNode s id with
    | none => Except.error Panic.badNode
    | some n =>
        match n.kind with
        | NodeKind.obs => Except.error Panic.badNode
        | NodeKind.deriv =>
            let s1 := setNode s id { n with numStaleNotifications := n.numStaleNotifications + 1 }
            if n.numStaleNotifications == 0 then prev.broadcastStale s1 id
            else Except.ok s1
  /- `DerivationData::send_ready`: decrement the stale counter, OR the
  `changed` bit into `should_update`, and on reaching zero either recompute
  or forward READY(changed = false). -/
  sendReady s id changed :=
    match getNode s id with
    | none => Except.error Panic.badNode
    | some n =>
        match n.kind with
        | NodeKind.obs => Except.error Panic.badNode
        | NodeKind.deriv =>
            if n.numStaleNotifications == 0 then Except.error Panic.staleUnderflow
            else
              let nsn := n.numStaleNotifications - 1
              let su := n.shouldUpdate || changed
              let s1 := setNode s id
                { n with numStaleNotifications := nsn, shouldUpdate := su }
              if nsn == 0 then
                if su then prev.update s1 id else prev.broadcastReady s1 id false
              else Except.ok s1
  /- `ObserverList::broadcast_stale`: take the list (leaving it empty),
  notify each observer of the snapshot in order, then set the snapshot back
  (clobbering any mutation made by a callee during the pass). -/
  broadcastStale s id :=
    match getNode s id with
    | none => Except.error Panic.badNode
    | some n =>
        let snapshot := n.observers
        let s1 := setNode s id { n with observers := [] }
        match prev.sendStaleList s1 snapshot with
        | Except.error e => Except.error e
        | Except.ok s2 =>
            match getNode s2 id with
            | none => Except.error Panic.badNode
            | some n2 => Except.ok (setNode s2 id { n2 with observers := snapshot })
  /- `ObserverList::broadcast_ready`, with the same take / set-back shape. -/
  broadcastReady s id changed :=
    match getNode s id with
    | none => Except.error Panic.badNode
    | some n =>
        let snapshot := n.observers
        let s1 := setNode s id { n with observers := [] }
        match prev.sendReadyList s1 snapshot changed with
        | Except.error e => Except.error e
        | Except.ok s2 =>
            match getNode s2 id with
            | none => Except.error Panic.badNode
            | some n2 => Except.ok (setNode s2 id { n2 with observers := snapshot })
  /- Loop body of `broadcast_stale`: upgrade each weak handle (panic if the
  observer is dead) and deliver `send_stale`. -/
  sendStaleList s l :=
    match l with
    | [] => Except.ok s
    | o :: rest =>
        match getNode s o with
        | none => Except.error Panic.deadObserver
        | some n =>
            if n.alive then
              match prev.sendStale s o with
              | Except.error e => Except.error e
              | Except.ok s1 => prev.sendStaleList s1 rest
            else Except.error Panic.deadObserver
  /- Loop body of `broadcast_ready`. -/
  sendReadyList s l changed :=
    match l with
    | [] => Except.ok s
    | o :: rest =>
        match getNode s o with
        | none => Except.error Panic.deadObserver
        | some n =>
            if n.alive then
              match prev.sendReady s o changed with
              | Except.error e => Except.error e
              | Except.ok s1 => prev.sendReadyList s1 rest changed
            else Except.error Panic.deadObserver
  /- `DerivationData::update`: clear the dirty flag, re-run the compute
  closure under a fresh capture frame, diff the old dependency list against
  the captured one (unsubscribing and subscribing accordingly), store the
  new value if it differs by equality, and broadcast READY(changed). -/
  update s id :=
    match getNode s id with
    | none => Except.error Panic.badNode
    | some n =>
        if !n.shouldUpdate then Except.error Panic.assertFailed
        else
          let sa := setNode s id { n with shouldUpdate := false }
          match pushFrame sa with
          | Except.error e => Except.error e
          | Except.ok sb =>
              match getNode sb id with
              | none => Except.error Panic.badNode
              | some n1 =>
                  let sc := setNode sb id { n1 with computeCount := n1.computeCount + 1 }
                  match evalExpr sc n.computeValue with
                  | Except.error e => Except.error e
                  | Except.ok (sd, newValue) =>
                      match popFrame sd with
                      | Except.error e => Except.error e
                      | Except.ok (se, nowObserving) =>
                          match getNode se id with
                          | none => Except.error Panic.badNode
                          | some n2 =>
                              let wasObserving := n2.observing
                              let sf := setNode se id { n2 with observing := [] }
                              match shedObservers sf wasObserving nowObserving id with
                              | Except.error e => Except.error e
                              | Except.ok sg =>
                                  match addNewObservers sg nowObserving wasObserving id with
                                  | Except.error e => Except.error e
                                  | Except.ok sh =>
                                      match getNode sh id with
                                      | none => Except.error Panic.badNode
                                      | some n3 =>
                                          let si := setNode sh id { n3 with observing := nowObserving }
                                          match getNode si id with
                                          | none => Except.error Panic.badNode
                                          | some n4 =>
                                              let changed := !(newValue == n4.value)
                                              let sj :=
                                                if changed then setNode si id { n4 with value := newValue }
                                                else si
                                              prev.broadcastReady sj id changed

/-- The protocol at a given fuel level. -/
def ops (fuel : Nat) : Ops :=
  Nat.rec opsFail (fun _ prev => opsStep prev) fuel

/-- `DerivationData::send_stale` with explicit fuel. -/
def sendStale (fuel : Nat) (s : St) (id : Nat) : Except Panic St :=
  (ops fuel).sendStale s id

/-- `DerivationData::send_ready` with explicit fuel. -/
def sendReady (fuel : Nat) (s : St) (id : Nat) (changed : Bool) : Except Panic St :=
  (ops fuel).sendReady s id changed

/-- `ObserverList::broadcast_stale` on node `id` with explicit fuel. -/
def broadcastStale (fuel : Nat) (s : St) (id : Nat) : Except Panic St :=
  (ops fuel).broadcastStale s id

/-- `ObserverList::broadcast_ready` on node `id` with explicit fuel. -/
def broadcastReady (fuel : Nat) (s : St) (id : Nat) (changed : Bool) : Except Panic St :=
  (ops fuel).broadcastReady s id changed

/-- `DerivationData::update` with explicit fuel. -/
def update (fuel : Nat) (s : St) (id : Nat) : Except Panic St :=
  (ops fuel).update s id

/-- Unfolding of the fuel recursion: one successor level of the protocol is
`opsStep` applied to the previous level. -/
theorem ops_succ (fuel : Nat) : ops (fuel + 1) = opsStep (ops fuel) := rfl

/-- `ObservableData::after_modified`: broadcast STALE to every observer,
then READY(changed = true) to every observer. -/
def afterModified (fuel : Nat) (s : St) (id : Nat) : Except Panic St :=
  Except.bind (broadcastStale fuel s id) (fun s1 => broadcastReady fuel s1 id true)

/-- `ObservablePtr::set`: compare by equality, overwrite only when the new
value differs, then run `after_modified` unconditionally. -/
def obsSet (fuel : Nat) (s : St) (id : Nat) (v : Int) : Except Panic St :=
  match getNode s id with
  | none => Except.error Panic.badNode
  | some n =>
      let s1 := if v == n.value then s else setNode s id { n with value := v }
      afterModified fuel s1 id

/-- Writing through `borrow_mut` and dropping the guard: unconditional
assignment, then `after_modified` from the guard's `Drop`. -/
def borrowMutAssign (fuel : Nat) (s : St) (id : Nat) (v : Int) : Except Panic St :=
  match getNode s id with
  | none => Except.error Panic.badNode
  | some n => afterModified fuel (setNode s id { n with value := v }) id

/-- `ObservablePtr::new`: allocate a fresh observable; no thread assertion,
no capture-stack interaction. -/
def observableNew (s : St) (v : Int) : St × Nat :=
  ({ s with
      nodes := s.nodes ++
        [{ kind := NodeKind.obs, value := v, computeValue := CExpr.lit 0,
           observers := [], observing := [], numStaleNotifications := 0,
           shouldUpdate := false, computeCount := 0, alive := true }] },
   s.nodes.length)

/-- Registration loop at the end of `DerivationPtr::new`. -/
def registerAll (s : St) (deps : List Nat) (id : Nat) : Except Panic (St × Nat) :=
  match deps with
  | [] => Except.ok (s, id)
  | d :: rest =>
      match addObserverTo s d id with
      | Except.error e => Except.error e
      | Except.ok s1 => registerAll s1 rest id

/-- `DerivationPtr::new`: run the closure once under a fresh capture frame,
allocate the node with the captured dependency list, then register the new
derivation as an observer of each captured node. -/
def derivationNew (s : St) (computeValue : CExpr) : Except Panic (St × Nat) :=
  match pushFrame s with
  | Except.error e => Except.error e
  | Except.ok s1 =>
      match evalExpr s1 computeValue with
      | Except.error e => Except.error e
      | Except.ok (s2, v) =>
          match popFrame s2 with
          | Except.error e => Except.error e
          | Except.ok (s3, observing) =>
              let id := s3.nodes.length
              let node : Node :=
                { kind := NodeKind.deriv, value := v, computeValue := computeValue,
                  observers := [], observing := observing, numStaleNotifications := 0,
                  shouldUpdate := false, computeCount := 1, alive := true }
              registerAll { s3 with nodes := s3.nodes ++ [node] } observing id

/-- `impl Drop for DerivationData`: remove self from every dependency's
observer list; the node then dies. -/
def dropDerivation (s : St) (id : Nat) : Except Panic St :=
  match getNode s id with
  | none => Except.error Panic.badNode
  | some n =>
      let s1 := setNode s id { n with observing := [], alive := false }
      let rec removeAll (s : St) : List Nat → Except Panic St
        | [] => Except.ok s
        | d :: rest =>
            match removeObserverFrom s d id with
            | Except.error e => Except.error e
            | Except.ok s2 => removeAll s2 rest
      removeAll s1 n.observing

/-! ## Derived checks and concrete runs

Scenario runs follow the spec's concrete end-to-end scenarios and the
failing inputs discussed in the claim analyses.  Node ids are assigned in
construction order starting from 0. -/

/-- The state after `observatory::init()` on thread 0, with execution
continuing on that thread. -/
def st0 : St := { nodes := [], observingStack := [], mainThread := some 0, curThread := 0 }

/-- A process that never called `init()`. -/
def stNoInit : St := { nodes := [], observingStack := [], mainThread := none, curThread := 0 }

/-- `borrow_untracked` of node `id` after a run; `none` if the run
panicked. -/
def valueAt (r : Except Panic St) (id : Nat) : Option Int :=
  match r with
  | Except.ok s => borrowUntracked s id
  | Except.error _ => none

/-- Number of compute-closure invocations of node `id` after a run. -/
def countAt (r : Except Panic St) (id : Nat) : Option Nat :=
  match r with
  | Except.ok s => (getNode s id).map (fun n => n.computeCount)
  | Except.error _ => none

/-- The panic of a run, if any. -/
def errAt (r : Except Panic St) : Option Panic :=
  match r with
  | Except.ok _ => none
  | Except.error e => some e

/-- The dependency list of node `id` after a run. -/
def observingAt (r : Except Panic St) (id : Nat) : Option (List Nat) :=
  match r with
  | Except.ok s => (getNode s id).map (fun n => n.observing)
  | Except.error _ => none

/-- The compute closure of node `id` evaluated against the current values
after a run (the spec's "compute(D) evaluated against current observable
values"). -/
def computeFreshAt (r : Except Panic St) (id : Nat) : Option Int :=
  match r with
  | Except.ok s => (getNode s id).bind (fun n => evalUntracked s n.computeValue)
  | Except.error _ => none

/-- The mirror invariant I2: a live derivation lists node `x` among its
dependencies iff `x` lists the derivation among its observers (and
observer lists only point at live nodes). -/
def mirrorOK (s : St) : Bool :=
  (List.range s.nodes.length).all (fun i =>
    match getNode s i with
    | none => true
    | some n =>
        (!n.alive || n.observing.all (fun x =>
            match getNode s x with
            | some m => m.observers.contains i
            | none => false)) &&
        n.observers.all (fun o =>
            match getNode s o with
            | some m => m.alive && m.observing.contains i
            | none => false))

/-- `mirrorOK` after a run. -/
def mirrorAt (r : Except Panic St) : Option Bool :=
  match r with
  | Except.ok s => some (mirrorOK s)
  | Except.error _ => none

/-- Chained derivation (spec scenario 2): `v = observable(0)` (id 0),
`a = derivation(|| *v + 1)` (id 1), `b = derivation(|| *a + 1)` (id 2). -/
def chain0 : Except Panic St := do
  let (s, _) := observableNew st0 0
  let (s, _) ← derivationNew s (CExpr.add (CExpr.read 0) (CExpr.lit 1))
  let (s, _) ← derivationNew s (CExpr.add (CExpr.read 1) (CExpr.lit 1))
  pure s

/-- The chain after `v.set(10)`. -/
def chain1 : Except Panic St := do
  let s ← chain0
  obsSet 20 s 0 10

/-- The chain after the equal-value write `v.set(0)`. -/
def chainEq : Except Panic St := do
  let s ← chain0
  obsSet 20 s 0 0

/-- The chain after `drop(b)`. -/
def chainDropMid : Except Panic St := do
  let s ← chain0
  dropDerivation s 2

/-- The chain after `drop(b); v.set(10)` (spec scenario 6). -/
def chainDrop : Except Panic St := do
  let s ← chainDropMid
  obsSet 20 s 0 10

/-- The sum closure of the diamond scenario:
`intermediates.iter().map(|v| *v.borrow()).fold(0, Add::add)`. -/
def sumExpr : CExpr :=
  CExpr.add (CExpr.add (CExpr.add (CExpr.add (CExpr.add (CExpr.add (CExpr.add
    (CExpr.add (CExpr.lit 0) (CExpr.read 1)) (CExpr.read 2)) (CExpr.read 3))
    (CExpr.read 4)) (CExpr.read 5)) (CExpr.read 6)) (CExpr.read 7)) (CExpr.read 8)

/-- Diamond (spec scenario 3): `base = observable(0)` (id 0), eight
intermediates `|| *base + i` (ids 1..8), and the counting sum derivation
(id 9). -/
def diamond0 : Except Panic St := do
  let (s, _) := observableNew st0 0
  let (s, _) ← derivationNew s (CExpr.add (CExpr.read 0) (CExpr.lit 1))
  let (s, _) ← derivationNew s (CExpr.add (CExpr.read 0) (CExpr.lit 2))
  let (s, _) ← derivationNew s (CExpr.add (CExpr.read 0) (CExpr.lit 3))
  let (s, _) ← derivationNew s (CExpr.add (CExpr.read 0) (CExpr.lit 4))
  let (s, _) ← derivationNew s (CExpr.add (CExpr.read 0) (CExpr.lit 5))
  let (s, _) ← derivationNew s (CExpr.add (CExpr.read 0) (CExpr.lit 6))
  let (s, _) ← derivationNew s (CExpr.add (CExpr.read 0) (CExpr.lit 7))
  let (s, _) ← derivationNew s (CExpr.add (CExpr.read 0) (CExpr.lit 8))
  let (s, _) ← derivationNew s sumExpr
  pure s

/-- The diamond after `base.set(1)`. -/
def diamond1 : Except Panic St := do
  let s ← diamond0
  obsSet 40 s 0 1

/-- Conditional dependency (spec scenario 4): `cond = observable(false)`
(id 0, false encoded as 0), `other = observable(10)` (id 1),
`r = derivation(|| if *cond { *other } else { 0 })` (id 2). -/
def condS0 : Except Panic St := do
  let (s, _) := observableNew st0 0
  let (s, _) := observableNew s 10
  let (s, _) ← derivationNew s (CExpr.ite (CExpr.read 0) (CExpr.read 1) (CExpr.lit 0))
  pure s

/-- After `other.set(15)`. -/
def condS1 : Except Panic St := do
  let s ← condS0
  obsSet 20 s 1 15

/-- After `cond.set(true)`. -/
def condS2 : Except Panic St := do
  let s ← condS1
  obsSet 20 s 0 1

/-- After `other.set(5)`. -/
def condS3 : Except Panic St := do
  let s ← condS2
  obsSet 20 s 1 5

/-- After `cond.set(false)`. -/
def condS4 : Except Panic St := do
  let s ← condS3
  obsSet 20 s 0 0

/-- After a subsequent `other.set(100)`. -/
def condS5 : Except Panic St := do
  let s ← condS4
  obsSet 20 s 1 100

/-- After one more `other.set(7)`. -/
def condS6 : Except Panic St := do
  let s ← condS5
  obsSet 20 s 1 7

/-- Re-registration programme: `x = observable(0)` (id 0),
`e = derivation(|| if *x != 0 { 1 } else { 0 })` (id 1),
`d = derivation(|| if *e != 0 { *x } else { 0 })` (id 2).  Initially `d`
reads only `e`. -/
def reregS0 : Except Panic St := do
  let (s, _) := observableNew st0 0
  let (s, _) ← derivationNew s (CExpr.ite (CExpr.read 0) (CExpr.lit 1) (CExpr.lit 0))
  let (s, _) ← derivationNew s (CExpr.ite (CExpr.read 1) (CExpr.read 0) (CExpr.lit 0))
  pure s

/-- After `x.set(1)`: `d` recomputes inside `x`'s in-progress READY
broadcast and newly reads `x`; its `add_observer` lands in the
temporarily-taken (empty) list and is clobbered when the broadcast sets
the snapshot back. -/
def reregS1 : Except Panic St := do
  let s ← reregS0
  obsSet 20 s 0 1

/-- After a further `x.set(2)`: `e` recomputes to an unchanged value, so
`d` is never told that `x` changed. -/
def reregS2 : Except Panic St := do
  let s ← reregS1
  obsSet 20 s 0 2

/-- After the equal-value write `x.set(2)` on top of `reregS2`. -/
def reregS3 : Except Panic St := do
  let s ← reregS2
  obsSet 20 s 0 2

/-- Dropping `d` after `reregS1`: its dependency list still names `x`, but
`x`'s observer list no longer names `d`. -/
def reregDrop : Except Panic St := do
  let s ← reregS1
  dropDerivation s 2

/-- Shedding programme: `x = observable(0)` (id 0),
`e = derivation(|| if *x != 0 { 1 } else { 0 })` (id 1),
`d = derivation(|| if *e != 0 { 0 } else { *x })` (id 2), then `x.set(1)`:
`d` recomputes inside `x`'s in-progress READY broadcast and sheds `x`,
calling `remove_observer` on the temporarily-taken (empty) list. -/
def shedBug : Except Panic St := do
  let (s, _) := observableNew st0 0
  let (s, _) ← derivationNew s (CExpr.ite (CExpr.read 0) (CExpr.lit 1) (CExpr.lit 0))
  let (s, _) ← derivationNew s (CExpr.ite (CExpr.read 1) (CExpr.lit 0) (CExpr.read 0))
  obsSet 20 s 0 1

/-- Public operations executed without `init()`: construct an observable
and `set` it (no observers, so no capture-stack interaction happens). -/
def noInitRun : Except Panic St := do
  let (s, _) := observableNew stNoInit 5
  obsSet 5 s 0 7

/-! ## Claim theorems -/

set_option maxRecDepth 100000
set_option maxHeartbeats 8000000

/-- C1: for the diamond — base = observable(0) (id 0), eight intermediate
derivations computing base + i (ids 1..8), and a counting sum derivation
(id 9) — the sum's compute closure has run once after construction and
twice (not nine times) after base.set(1); each intermediate has also run
exactly once more, and the run returns without panic with the sum fresh at
44. -/
theorem C1_diamond_at_most_once :
    countAt diamond0 9 = some 1 ∧ countAt diamond1 9 = some 2 ∧
    countAt diamond1 1 = some 2 ∧ countAt diamond1 2 = some 2 ∧
    countAt diamond1 3 = some 2 ∧ countAt diamond1 4 = some 2 ∧
    countAt diamond1 5 = some 2 ∧ countAt diamond1 6 = some 2 ∧
    countAt diamond1 7 = some 2 ∧ countAt diamond1 8 = some 2 ∧
    valueAt diamond1 9 = some 44 ∧ errAt diamond1 = none := by decide

/-- C2: the claim's own chained scenario holds — (v, a, b) go from
(0, 1, 2) to (10, 11, 12) after v.set(10) — but the universal freshness
property fails on the code: in the re-registration programme, after the
write x.set(2) returns without panic, derivation d (id 2) still caches 1
while its compute closure evaluated against the current values yields 2.
The re-registration of d on x during x's in-progress READY broadcast was
discarded by `ObserverList`'s take / set-back pattern, so x never notifies
d again. -/
theorem C2_freshness_violated_by_lost_registration :
    (valueAt chain0 0 = some 0 ∧ valueAt chain0 1 = some 1 ∧
     valueAt chain0 2 = some 2 ∧ valueAt chain1 0 = some 10 ∧
     valueAt chain1 1 = some 11 ∧ valueAt chain1 2 = some 12) ∧
    (errAt reregS2 = none ∧ valueAt reregS2 0 = some 2 ∧
     valueAt reregS2 2 = some 1 ∧ computeFreshAt reregS2 2 = some 2) := by decide

/-- C3: the stale/ready state machine of a derivation.  On SEND_STALE the
counter is incremented and STALE is re-broadcast to the derivation's own
observers iff the old counter was zero; on SEND_READY(changed) with
counter at least one, the counter is decremented, the dirty flag is OR-ed
with `changed`, and on reaching zero the derivation recomputes when dirty
and otherwise broadcasts READY(changed = false). -/
theorem C3_stale_ready_state_machine :
    (∀ (fuel : Nat) (s : St) (id : Nat) (n : Node),
        getNode s id = some n → n.kind = NodeKind.deriv →
        sendStale (fuel + 1) s id =
          (let s1 := setNode s id
             { n with numStaleNotifications := n.numStaleNotifications + 1 }
           if n.numStaleNotifications == 0 then broadcastStale fuel s1 id
           else Except.ok s1)) ∧
    (∀ (fuel : Nat) (s : St) (id : Nat) (changed : Bool) (n : Node),
        getNode s id = some n → n.kind = NodeKind.deriv →
        1 ≤ n.numStaleNotifications →
        sendReady (fuel + 1) s id changed =
          (let nsn := n.numStaleNotifications - 1
           let su := n.shouldUpdate || changed
           let s1 := setNode s id
             { n with numStaleNotifications := nsn, shouldUpdate := su }
           if nsn == 0 then
             if su then update fuel s1 id else broadcastReady fuel s1 id false
           else Except.ok s1)) := by
  constructor
  · intro fuel s id n h hk
    simp only [sendStale, broadcastStale, ops_succ, opsStep, h, hk]
  · intro fuel s id changed n h hk hc
    have h0 : (n.numStaleNotifications == 0) = false := by
      simp only [beq_eq_false_iff_ne, ne_eq]
      omega
    simp only [sendReady, update, broadcastReady, ops_succ, opsStep, h, hk, h0,
      Bool.false_eq_true, if_false]

/-- A derivation node with one pending stale notification, used to witness
C3 at a concrete input. -/
def c3wNode : Node :=
  { kind := NodeKind.deriv, value := 0, computeValue := CExpr.lit 0, observers := [],
    observing := [], numStaleNotifications := 1, shouldUpdate := false,
    computeCount := 1, alive := true }

/-- A one-node state holding `c3wNode`. -/
def c3wSt : St :=
  { nodes := [c3wNode], observingStack := [], mainThread := some 0, curThread := 0 }

/-- C3 witness: both transitions of the state machine instantiated on the
concrete one-derivation state. -/
theorem C3_stale_ready_state_machine_witness :
    (getNode c3wSt 0 = some c3wNode ∧ c3wNode.kind = NodeKind.deriv ∧
     1 ≤ c3wNode.numStaleNotifications) ∧
    (sendStale 4 c3wSt 0 =
      (let s1 := setNode c3wSt 0
         { c3wNode with numStaleNotifications := c3wNode.numStaleNotifications + 1 }
       if c3wNode.numStaleNotifications == 0 then broadcastStale 3 s1 0
       else Except.ok s1)) ∧
    (sendReady 4 c3wSt 0 true =
      (let nsn := c3wNode.numStaleNotifications - 1
       let su := c3wNode.shouldUpdate || true
       let s1 := setNode c3wSt 0
         { c3wNode with numStaleNotifications := nsn, shouldUpdate := su }
       if nsn == 0 then
         if su then update 3 s1 0 else broadcastReady 3 s1 0 false
       else Except.ok s1)) :=
  ⟨⟨by decide, by decide, by decide⟩,
   C3_stale_ready_state_machine.1 3 c3wSt 0 c3wNode (by decide) (by decide),
   C3_stale_ready_state_machine.2 3 c3wSt 0 true c3wNode (by decide) (by decide) (by decide)⟩

/-- C4: the claim's conditional-dependency scenario holds exactly as
stated — counts 1, 1, 2, 3, 4 and values 0, 0, 15, 5, 0, with two further
other.set(...) writes leaving the count at 4 — but the universal shedding
property fails on the code: in the shedding programme, the derivation
stops reading x during a recompute that runs inside x's own in-progress
READY broadcast, and the removal hits `ObserverList::remove`'s
internal-error panic on the temporarily-taken (empty) list instead of
unsubscribing. -/
theorem C4_dependency_shedding :
    (countAt condS0 2 = some 1 ∧ valueAt condS0 2 = some 0 ∧
     countAt condS1 2 = some 1 ∧ valueAt condS1 2 = some 0 ∧
     countAt condS2 2 = some 2 ∧ valueAt condS2 2 = some 15 ∧
     countAt condS3 2 = some 3 ∧ valueAt condS3 2 = some 5 ∧
     countAt condS4 2 = some 4 ∧ valueAt condS4 2 = some 0 ∧
     countAt condS5 2 = some 4 ∧ valueAt condS5 2 = some 0 ∧
     countAt condS6 2 = some 4 ∧ valueAt condS6 2 = some 0) ∧
    errAt shedBug = some Panic.observerNotFound := by decide

/-- C6: the claim's drop scenario holds — after v = observable(0),
a = derivation(v + 1), b = derivation(a + 1), drop(b), v.set(10) the run
returns without panic with a = 11, and the mirror invariant holds at each
of those quiescent states — but the mirror invariant is not preserved in
general: after the re-registration programme's x.set(1) returns, d lists x
among its dependencies while x's observer list does not name d
(`mirrorOK` is false), and a subsequent drop(d) panics in
`ObserverList::remove`'s internal-error expect. -/
theorem C6_mirror_invariant :
    (mirrorAt chain0 = some true ∧ mirrorAt chainDropMid = some true ∧
     mirrorAt chainDrop = some true ∧ errAt chainDrop = none ∧
     valueAt chainDrop 1 = some 11) ∧
    (errAt reregS1 = none ∧ mirrorAt reregS1 = some false ∧
     (observingAt reregS1 2).map (fun l => l.contains 0) = some true ∧
     errAt reregDrop = some Panic.observerNotFound) := by decide

/-- C7: `set(new)` compares the new value against the current one by
equality, overwrites only when they differ, and then runs
`after_modified()` unconditionally: writing the value the observable
already holds leaves the state untouched but still runs
`after_modified()`, which broadcasts STALE to every observer followed by
READY(changed = true); concretely, an equal-value write on the chain
still runs the direct observer's compute closure once (count 1 to 2)
while leaving every value unchanged. -/
theorem C7_set_semantics :
    (∀ (fuel : Nat) (s : St) (id : Nat) (v : Int) (n : Node),
        getNode s id = some n →
        obsSet fuel s id v =
          afterModified fuel
            (if v == n.value then s else setNode s id { n with value := v }) id) ∧
    (∀ (fuel : Nat) (s : St) (id : Nat) (n : Node),
        getNode s id = some n →
        obsSet fuel s id n.value = afterModified fuel s id) ∧
    (∀ (fuel : Nat) (s : St) (id : Nat),
        afterModified fuel s id =
          Except.bind (broadcastStale fuel s id)
            (fun s1 => broadcastReady fuel s1 id true)) ∧
    (countAt chainEq 1 = some 2 ∧ countAt chainEq 2 = some 1 ∧
     valueAt chainEq 0 = some 0 ∧ valueAt chainEq 1 = some 1 ∧
     valueAt chainEq 2 = some 2) := by
  refine ⟨?_, ?_, ?_, ?_⟩
  · intro fuel s id v n h
    simp only [obsSet, h]
  · intro fuel s id n h
    simp only [obsSet, h, beq_self_eq_true, if_true]
  · intro fuel s id
    rfl
  · decide

/-- A one-observable state used to witness C7 at a concrete input. -/
def c7wNode : Node :=
  { kind := NodeKind.obs, value := 7, computeValue := CExpr.lit 0, observers := [],
    observing := [], numStaleNotifications := 0, shouldUpdate := false,
    computeCount := 0, alive := true }

/-- The state holding `c7wNode`. -/
def c7wSt : St :=
  { nodes := [c7wNode], observingStack := [], mainThread := some 0, curThread := 0 }

/-- C7 witness: the `set` characterisation instantiated on a concrete
observable, for both a differing write (3 over 7) and an equal-value
write (7 over 7). -/
theorem C7_set_semantics_witness :
    getNode c7wSt 0 = some c7wNode ∧
    obsSet 5 c7wSt 0 3 =
      afterModified 5
        (if (3 : Int) == c7wNode.value then c7wSt
         else setNode c7wSt 0 { c7wNode with value := 3 }) 0 ∧
    obsSet 5 c7wSt 0 7 = afterModified 5 c7wSt 0 :=
  ⟨by decide, C7_set_semantics.1 5 c7wSt 0 3 c7wNode (by decide),
   C7_set_semantics.2.1 5 c7wSt 0 c7wNode (by decide)⟩

/-- C8: the first part of the claim holds on the failing input — the
equal-value write x.set(2) changes no derivation's cached value — but the
"exactly once for every directly observing derivation" part fails: after
the re-registration programme (x.set(1); x.set(2)), derivation d (id 2)
still lists x (id 0) among its dependencies, yet the equal-value write
invokes e (id 1) once (count 3 to 4) and d zero times (count stays 2),
because d's registration on x was lost. -/
theorem C8_equal_value_write :
    errAt reregS3 = none ∧
    valueAt reregS2 1 = some 1 ∧ valueAt reregS2 2 = some 1 ∧
    valueAt reregS3 0 = some 2 ∧ valueAt reregS3 1 = some 1 ∧
    valueAt reregS3 2 = some 1 ∧
    countAt reregS2 1 = some 3 ∧ countAt reregS3 1 = some 4 ∧
    countAt reregS2 2 = some 2 ∧ countAt reregS3 2 = some 2 ∧
    (observingAt reregS3 2).map (fun l => l.contains 0) = some true := by decide

/-- C9 counterexample: with `init()` never called (`MAIN_THREAD` empty),
constructing an observable and calling `set` on it complete without any
error — refuting the claim that every public graph operation first asserts
the owning thread and fails with NotInitialized when `init()` has not been
called. -/
theorem C9_counterexample_no_assertion :
    stNoInit.mainThread = none ∧ errAt noInitRun = none ∧
    valueAt noInitRun 0 = some 7 := by decide

/-- C9 (amended): only the operations that touch the capture stack assert
the owning thread.  Tracked borrows and derivation construction fail with
NotInitialized when `init()` has not been called and with WrongThread when
run from a thread other than the one that called `init()`; untracked
borrows never consult the runtime at all (and, per the counterexample,
neither do observable construction or `set` by themselves). -/
theorem C9_amended_thread_assertions :
    (∀ (s : St) (id : Nat), s.mainThread = none →
        borrowTracked s id = Except.error Panic.notInitialized) ∧
    (∀ (s : St) (id t : Nat), s.mainThread = some t → t ≠ s.curThread →
        borrowTracked s id = Except.error Panic.wrongThread) ∧
    (∀ (s : St) (e : CExpr), s.mainThread = none →
        derivationNew s e = Except.error Panic.notInitialized) ∧
    (∀ (s : St) (e : CExpr) (t : Nat), s.mainThread = some t → t ≠ s.curThread →
        derivationNew s e = Except.error Panic.wrongThread) ∧
    (∀ (s : St) (id : Nat) (n : Node), getNode s id = some n →
        borrowUntracked s id = some n.value) := by
  refine ⟨?_, ?_, ?_, ?_, ?_⟩
  · intro s id h
    simp only [borrowTracked, noteObserved, assertAccess, h]
  · intro s id t h hne
    have h0 : (t == s.curThread) = false := by
      simp only [beq_eq_false_iff_ne, ne_eq]
      exact hne
    simp only [borrowTracked, noteObserved, assertAccess, h, h0, Bool.false_eq_true,
      if_false]
  · intro s e h
    simp only [derivationNew, pushFrame, assertAccess, h]
  · intro s e t h hne
    have h0 : (t == s.curThread) = false := by
      simp only [beq_eq_false_iff_ne, ne_eq]
      exact hne
    simp only [derivationNew, pushFrame, assertAccess, h, h0, Bool.false_eq_true,
      if_false]
  · intro s id n h
    unfold borrowUntracked
    rw [h]
    rfl

/-- A state whose owning thread differs from the current thread, used to
witness C9. -/
def c9wSt : St :=
  { nodes := [], observingStack := [], mainThread := some 1, curThread := 0 }

/-- The observable built without `init()`, used to witness the untracked
read of C9. -/
def c9wRun : St := (observableNew stNoInit 5).1

/-- The node stored by `c9wRun`. -/
def c9wNode : Node :=
  { kind := NodeKind.obs, value := 5, computeValue := CExpr.lit 0, observers := [],
    observing := [], numStaleNotifications := 0, shouldUpdate := false,
    computeCount := 0, alive := true }

/-- C9 witness: the amended assertions instantiated on concrete states. -/
theorem C9_amended_thread_assertions_witness :
    (stNoInit.mainThread = none ∧
     borrowTracked stNoInit 0 = Except.error Panic.notInitialized) ∧
    (c9wSt.mainThread = some 1 ∧ (1 : Nat) ≠ c9wSt.curThread ∧
     borrowTracked c9wSt 0 = Except.error Panic.wrongThread) ∧
    derivationNew stNoInit (CExpr.lit 0) = Except.error Panic.notInitialized ∧
    derivationNew c9wSt (CExpr.lit 0) = Except.error Panic.wrongThread ∧
    (getNode c9wRun 0 = some c9wNode ∧ borrowUntracked c9wRun 0 = some 5) :=
  ⟨⟨by decide, C9_amended_thread_assertions.1 stNoInit 0 (by decide)⟩,
   ⟨by decide, by decide,
    C9_amended_thread_assertions.2.1 c9wSt 0 1 (by decide) (by decide)⟩,
   C9_amended_thread_assertions.2.2.1 stNoInit (CExpr.lit 0) (by decide),
   C9_amended_thread_assertions.2.2.2.1 c9wSt (CExpr.lit 0) 1 (by decide) (by decide),
   ⟨by decide, C9_amended_thread_assertions.2.2.2.2 c9wRun 0 c9wNode (by decide)⟩⟩

/-- C10: a tracked read with no active capture frame fails with
ReadOutsideDerivation; with an active frame it appends the node to the top
frame iff no entry with the same identity is already there (first-seen
deduplication, leaving the state untouched on a duplicate); and
`borrow_untracked` returns the value without touching the capture stack,
so it never fails for that reason. -/
theorem C10_tracked_read_rules :
    (∀ (s : St) (id : Nat), s.mainThread = some s.curThread →
        s.observingStack = [] →
        borrowTracked s id = Except.error Panic.readOutsideDerivation) ∧
    (∀ (s : St) (id : Nat) (top : List Nat) (rest : List (List Nat)),
        s.mainThread = some s.curThread → s.observingStack = top :: rest →
        (top.contains id = true → noteObserved s id = Except.ok s) ∧
        (top.contains id = false →
           noteObserved s id =
             Except.ok { s with observingStack := (top ++ [id]) :: rest })) ∧
    (∀ (s : St) (id : Nat) (n : Node), getNode s id = some n →
        borrowUntracked s id = some n.value) := by
  refine ⟨?_, ?_, ?_⟩
  · intro s id hm hs
    simp only [borrowTracked, noteObserved, assertAccess, hm, hs, beq_self_eq_true,
      if_true]
  · intro s id top rest hm hs
    constructor
    · intro hc
      simp only [noteObserved, assertAccess, hm, hs, beq_self_eq_true, if_true, hc]
    · intro hc
      simp only [noteObserved, assertAccess, hm, hs, beq_self_eq_true, if_true, hc,
        Bool.false_eq_true, if_false]
  · intro s id n h
    unfold borrowUntracked
    rw [h]
    rfl

/-- A state with one active capture frame already containing node 3, used
to witness C10. -/
def c10wSt : St :=
  { nodes := [], observingStack := [[3]], mainThread := some 0, curThread := 0 }

/-- C10 witness: the tracked-read rules instantiated on concrete states —
no frame, a duplicate read, and a first read. -/
theorem C10_tracked_read_rules_witness :
    (st0.mainThread = some st0.curThread ∧ st0.observingStack = [] ∧
     borrowTracked st0 0 = Except.error Panic.readOutsideDerivation) ∧
    (c10wSt.observingStack = [3] :: [] ∧ ([3] : List Nat).contains 3 = true ∧
     noteObserved c10wSt 3 = Except.ok c10wSt) ∧
    (([3] : List Nat).contains 4 = false ∧
     noteObserved c10wSt 4 =
       Except.ok { c10wSt with observingStack := ([3] ++ [4]) :: [] }) :=
  ⟨⟨by decide, by decide, C10_tracked_read_rules.1 st0 0 (by decide) (by decide)⟩,
   ⟨by decide, by decide,
    (C10_tracked_read_rules.2.1 c10wSt 3 [3] [] (by decide) (by decide)).1 (by decide)⟩,
   ⟨by decide,
    (C10_tracked_read_rules.2.1 c10wSt 4 [3] [] (by decide) (by decide)).2 (by decide)⟩⟩
